import Mathlib

/-!
# Verification of the duke3d_upscaler pipeline core

Shallow embedding of the alpha-sanitization image transforms
(`premultiply.py`, `verify.py`, `scrub.py`), the orchestrator
(`workflow.py`), and the retry wrapper (`error_handling.py`),
with theorems settling the specification claims.

Modelling conventions:
* uint8 channel values are natural numbers (the uint8 range `≤ 255` is an
  explicit hypothesis where it matters);
* numpy float32 arithmetic is modelled by exact rational arithmetic (the
  settled properties are far from float32 rounding boundaries);
* an image is the list of its pixels — every modelled transform is
  pixelwise, so the 2-D layout is irrelevant;
* raising an exception is modelled with `Except`.
-/

namespace Upscaler

/-- One RGBA pixel: uint8 channels modelled as naturals. -/
structure Pixel where
  r : ℕ
  g : ℕ
  b : ℕ
  a : ℕ
  deriving Repr, DecidableEq

/-- An image as loaded by `PIL.Image.open`: either an RGBA raster
(its pixels) or any other mode (carried opaquely, since every modelled
transform passes non-RGBA images through unchanged). -/
inductive Img where
  | rgba (pixels : List Pixel)
  | other (data : List ℕ)
  deriving Repr, DecidableEq

/-- The pixel list of an image (empty for non-RGBA modes). -/
def imgPixels : Img → List Pixel
  | Img.rgba ps => ps
  | Img.other _ => []

/-! ## `scrub.py` — `ScrubPhase._remove_magenta_pixels` -/

/-- The magenta classification of `scrub.py` lines 106-108:
`red > 255*(1 - tolerance) ∧ blue > 255*(1 - tolerance) ∧
green < 255*tolerance` (float32 comparisons modelled over ℚ). -/
def magentaB (t : ℚ) (p : Pixel) : Bool :=
  decide ((p.r : ℚ) > 255 * (1 - t)) &&
  decide ((p.b : ℚ) > 255 * (1 - t)) &&
  decide ((p.g : ℚ) < 255 * t)

/-- Effect of `rgb[combined_mask] = [0, 0, 0]` on one pixel:
pixels in `magenta_mask & zero_alpha_mask` get RGB `(0,0,0)`,
all other pixels (and every alpha value) are unchanged. -/
def scrubPixel (t : ℚ) (p : Pixel) : Pixel :=
  if magentaB t p && (p.a == 0) then { r := 0, g := 0, b := 0, a := p.a } else p

/-- `ScrubPhase._remove_magenta_pixels` on one opened image:
for RGBA images, if any pixel is magenta-classified the masked
rewrite is applied (`np.dstack` keeps the original alpha), otherwise
the image is copied unchanged; non-RGBA images are copied as-is. -/
def removeMagentaPixels (t : ℚ) : Img → Img
  | Img.rgba ps =>
      if ps.any (magentaB t) then Img.rgba (ps.map (scrubPixel t)) else Img.rgba ps
  | Img.other d => Img.other d

/-! ## `premultiply.py` — `PremultiplyPhase._premultiply_image` -/

/-- `np.clip(x, 0, 255)` over ℚ. -/
def clip255 (x : ℚ) : ℚ := max 0 (min 255 x)

/-- `astype(np.uint8)` on a clipped non-negative value: truncation
toward zero, i.e. the floor. -/
def truncUint8 (x : ℚ) : ℕ := Int.toNat ⌊clip255 x⌋

/-- One colour channel of `_premultiply_image`: the channel is scaled by
the normalized alpha `a/255` where `alpha > 0` and zeroed where
`alpha == 0` (lines 101-108), then clipped and truncated to uint8. -/
def premultChan (c a : ℕ) : ℕ :=
  if 0 < a then truncUint8 ((c : ℚ) * ((a : ℚ) / 255)) else 0

/-- `_premultiply_image` on one RGBA pixel: all three colour channels are
premultiplied, the alpha channel is restacked unchanged (line 111). -/
def premultPixel (p : Pixel) : Pixel :=
  { r := premultChan p.r p.a
    g := premultChan p.g p.a
    b := premultChan p.b p.a
    a := p.a }

/-- `PremultiplyPhase._premultiply_image` on one opened image:
RGBA images are premultiplied pixelwise; other modes are copied as-is. -/
def premultiplyImage : Img → Img
  | Img.rgba ps => Img.rgba (ps.map premultPixel)
  | Img.other d => Img.other d

/-! ## `verify.py` — `VerifyPhase._check_pink_halos` -/

/-- The pink classification actually implemented at `verify.py` line 124:
`red > tolerance*255 ∧ blue > tolerance*255 ∧ green < (1 - tolerance)*255`.
(The comment above that line says "high red and blue, low green"; the
inequalities implement the opposite directions — see `C1`.) -/
def codePinkB (t : ℚ) (p : Pixel) : Bool :=
  decide ((p.r : ℚ) > t * 255) &&
  decide ((p.b : ℚ) > t * 255) &&
  decide ((p.g : ℚ) < (1 - t) * 255)

/-- The pink classification the specification describes:
`red > (1-t)*255 ∧ blue > (1-t)*255 ∧ green < t*255`. -/
def specPinkB (t : ℚ) (p : Pixel) : Bool :=
  decide ((p.r : ℚ) > (1 - t) * 255) &&
  decide ((p.b : ℚ) > (1 - t) * 255) &&
  decide ((p.g : ℚ) < t * 255)

/-- `np.any(zero_alpha_rgb > tolerance * 255)` of `verify.py` line 114:
some channel of some alpha-0 pixel exceeds `tolerance*255`. -/
def anyNonZeroRgb (t : ℚ) (zs : List Pixel) : Bool :=
  zs.any fun p =>
    decide ((p.r : ℚ) > t * 255) || decide ((p.g : ℚ) > t * 255) ||
    decide ((p.b : ℚ) > t * 255)

/-- `VerifyPhase._check_pink_halos`: non-RGBA images are never flagged;
for RGBA images, restrict to alpha-0 pixels, and flag the image when the
non-zero-RGB gate passes and some alpha-0 pixel matches the implemented
pink classification. -/
def checkPinkHalos (t : ℚ) : Img → Bool
  | Img.other _ => false
  | Img.rgba ps =>
      let zs := ps.filter fun p => p.a == 0
      if zs.isEmpty then false
      else if anyNonZeroRgb t zs then zs.any (codePinkB t)
      else false

/-! ## Exceptions, pipeline state (`state.py`) -/

/-- The exceptions the modelled code can raise. `error_handling.py` defines
`DependencyError` (documented "Raised when phase dependencies are not
satisfied") as a subclass of `PipelineError`; the constructors here mirror
the dynamic classes of the raised objects. -/
inductive PErr where
  | fileNotFound (msg : String)
  | runtimeError (msg : String)
  | pipelineError (msg : String)
  | dependencyError (msg : String)
  deriving Repr, DecidableEq

/-- Whether a raised error is an instance of the `DependencyError` class. -/
def PErr.isDepErr : PErr → Bool
  | .dependencyError _ => true
  | _ => false

/-- `PipelineState`: the `state.json` dictionary, an insertion-ordered map
from phase name to status string. -/
abbrev StateMap := List (String × String)

/-- `state[key]` read access (`None` when absent). -/
def stateGet (st : StateMap) (k : String) : Option String :=
  List.lookup k st

/-- `state[key] = value`: update in place when the key exists, append
otherwise (Python dict insertion-order semantics). -/
def stateSet (st : StateMap) (k v : String) : StateMap :=
  if (List.any st fun kv => kv.1 == k) then
    List.map (fun kv => if kv.1 == k then (k, v) else kv) st
  else st ++ [(k, v)]

/-! ## `verify.py` — `VerifyPhase.run` -/

/-- Python `str.endswith(suffix)`: the suffix relation on the character
sequences. -/
def strEndsWith (s suffix : String) : Bool :=
  decide (suffix.data <:+ s.data)

/-- `VerifyPhase._verify_images` over a directory listing: the filenames
(in listing order) ending in `.png` whose image `_check_pink_halos` flags. -/
def verifyIssues (t : ℚ) (files : List (String × Img)) : List String :=
  List.map Prod.fst
    (List.filter (fun f => strEndsWith f.1 ".png" && checkPinkHalos t f.2) files)

/-- `VerifyPhase.run`. The input directory listing
(`files/output/31_reattach/textures`) is the `files` association list;
a missing directory and an empty one both fail `_check_required_files`
(modelled as the empty listing). The result pairs the raised exception or
updated state with the directory contents after the phase — the source
contains no write or delete call, so they are returned unchanged. -/
def verifyRun (t : ℚ) (files : List (String × Img)) (st : StateMap) :
    Except PErr StateMap × List (String × Img) :=
  if files.isEmpty then
    (.error (.fileNotFound
        "Missing required files in files/output/31_reattach/textures"), files)
  else if !(verifyIssues t files).isEmpty then
    (.error (.runtimeError "Pink artifacts detected in upscaled images"), files)
  else
    (.ok (stateSet st "verify" "completed"), files)

/-! ## `workflow.py` — `PipelineWorkflow` -/

/-- `PipelineWorkflow.PHASE_ORDER`. -/
def PHASE_ORDER : List String :=
  ["game_files", "extract", "convert", "premultiply", "extract_alpha",
   "upscale_alpha", "upscale", "reattach_alpha", "verify", "scrub",
   "generate_mod"]

/-- `PipelineWorkflow.PHASE_DEPENDENCIES`. -/
def PHASE_DEPENDENCIES : String → List String
  | "game_files" => []
  | "extract" => ["game_files"]
  | "convert" => ["extract"]
  | "premultiply" => ["convert"]
  | "extract_alpha" => ["premultiply"]
  | "upscale_alpha" => ["extract_alpha"]
  | "upscale" => ["convert"]
  | "reattach_alpha" => ["upscale", "extract_alpha", "upscale_alpha"]
  | "verify" => ["reattach_alpha"]
  | "scrub" => ["reattach_alpha"]
  | "generate_mod" => ["scrub"]
  | _ => []

/-- `phase_name in self.phases`: `_create_phases` instantiates exactly the
eleven declared phases. -/
def phaseKnown (p : String) : Bool := PHASE_ORDER.contains p

/-- The dependencies of `p` that fail
`dep in self.state and self.state[dep] == "completed"`. -/
def unmetDeps (st : StateMap) (p : String) : List String :=
  List.filter (fun d => !(stateGet st d == some "completed"))
    (PHASE_DEPENDENCIES p)

/-- The `f"{phase_name}: missing {'/'.join(missing_deps)}"` entry. -/
def missingEntry (st : StateMap) (p : String) : String :=
  p ++ ": missing " ++ String.intercalate "/" (unmetDeps st p)

/-- `PipelineWorkflow.validate_phase_dependencies`: returns
`(valid_phases, missing_dependencies)` in request order; unknown phase
names are skipped with a log line. -/
def validatePhaseDependencies (phases : List String) (st : StateMap) :
    List String × List String :=
  match phases with
  | [] => ([], [])
  | p :: rest =>
      let vm := validatePhaseDependencies rest st
      if !phaseKnown p then vm
      else if (unmetDeps st p).isEmpty then (p :: vm.1, vm.2)
      else (vm.1, missingEntry st p :: vm.2)

/-- The `error_msg` built in `run_phases` before raising on unmet
dependencies. -/
def depErrorMsg (missing : List String) : String :=
  "Phase dependencies not satisfied:\n" ++
    String.intercalate "\n" (List.map (fun d => "  - " ++ d) missing)

/-- Outcome of one `run_phases` call: the returned/raised value, the final
`PipelineState`, the phases on which `_run_single_phase` was entered
(in order), and the persisted workflow-summary document, `none` when
`_save_workflow_summary` never ran. The summary document's
`completed_at`/`start_time` wall-clock fields are outside the embedding;
its `phases` mapping is modelled. -/
structure RunOutcome where
  result : Except PErr Unit
  state : StateMap
  executed : List String
  summary : Option (List (String × String))

/-- The `summary["phases"]` mapping of `_save_workflow_summary`:
every declared phase mapped to its state entry, defaulting to
`"not_run"`. -/
def workflowSummary (st : StateMap) : List (String × String) :=
  List.map (fun p => (p, (stateGet st p).getD "not_run")) PHASE_ORDER

/-- The phase-execution loop of `run_phases` together with
`_run_single_phase`. `exec` abstracts the body of `_run_single_phase`
for a phase: `none` means the `validate()`/`execute()` calls return
without raising, `some msg` means they raise an exception rendered as
`msg`. (With the phase classes of this repository, which implement
`run()` but neither `validate()` nor `execute()`, a non-dry run would
always raise `AttributeError` here; keeping `exec` a parameter proves the
orchestration claims for every phase behavior.) Returns the result, the
final state and the phases entered. -/
def runLoop (dryRun skipCompleted : Bool) (exec : String → Option String) :
    List String → StateMap → Except PErr Unit × StateMap × List String
  | [], st => (.ok (), st, [])
  | p :: rest, st =>
      if skipCompleted && (stateGet st p == some "completed") then
        runLoop dryRun skipCompleted exec rest st
      else if dryRun then
        let r := runLoop dryRun skipCompleted exec rest (stateSet st p "completed")
        (r.1, r.2.1, p :: r.2.2)
      else
        match exec p with
        | none =>
            let r := runLoop dryRun skipCompleted exec rest (stateSet st p "completed")
            (r.1, r.2.1, p :: r.2.2)
        | some msg =>
            (.error (.pipelineError ("Phase " ++ p ++ " failed: " ++ msg)),
             stateSet st p ("failed: " ++ msg), [p])

/-- `PipelineWorkflow.run_phases`: defaults the request to `PHASE_ORDER`,
validates dependencies against the current state, raises a
`PipelineError` with `depErrorMsg` when any requested phase has unmet
dependencies (before any phase runs), returns early when no phase is
valid, and otherwise runs the loop; `_finish_workflow` saves the summary
only when the loop returns normally (an exception propagates past it)
and only outside dry-run mode. -/
def runPhases (phaseNames : Option (List String)) (dryRun skipCompleted : Bool)
    (exec : String → Option String) (st : StateMap) : RunOutcome :=
  let names := phaseNames.getD PHASE_ORDER
  let vm := validatePhaseDependencies names st
  if !vm.2.isEmpty then
    { result := .error (.pipelineError (depErrorMsg vm.2)), state := st,
      executed := [], summary := none }
  else if vm.1.isEmpty then
    { result := .ok (), state := st, executed := [], summary := none }
  else
    let r := runLoop dryRun skipCompleted exec vm.1 st
    match r.1 with
    | .ok _ =>
        { result := .ok (), state := r.2.1, executed := r.2.2,
          summary := if dryRun then none else some (workflowSummary r.2.1) }
    | .error e =>
        { result := .error e, state := r.2.1, executed := r.2.2,
          summary := none }

/-- Whether the call failed dependency validation with a
`DependencyError` instance. -/
def raisedDependencyError (o : RunOutcome) : Bool :=
  match o.result with
  | .error e => e.isDepErr
  | .ok _ => false

/-! ## `error_handling.py` — `retry_on_exception` -/

/-- `RetryStrategy` of `error_handling.py`. -/
inductive RetryStrategy where
  | linear
  | exponential
  | fixed
  deriving Repr, DecidableEq

/-- What one attempt of the wrapped operation does: return a value, raise
an exception caught by the `except exceptions` clause, or raise one that
does not match it. -/
inductive Attempt (α : Type) where
  | success (v : α)
  | retryable (e : String)
  | nonmatching (e : String)
  deriving Repr, DecidableEq

/-- How a `retry_on_exception`-wrapped call ends: a returned value, a
matching exception re-raised (`raise` on the last attempt), a
non-matching exception propagating out of the `try`, or the implicit
`None` return when `max_attempts == 0` (empty loop, `last_exception`
still `None`). -/
inductive RetryOut (α : Type) where
  | returned (v : α)
  | raised (e : String)
  | propagated (e : String)
  | fellThrough
  deriving Repr, DecidableEq

/-- The `actual_delay` update after a sleep (`error_handling.py`
lines 145-149); float arithmetic modelled over ℚ. -/
def updateDelay (strategy : RetryStrategy) (delay backoff actual : ℚ) : ℚ :=
  match strategy with
  | .exponential => actual * backoff
  | .linear => actual + delay * backoff
  | .fixed => actual

/-- The `for attempt in range(max_attempts)` loop of `retry_on_exception`:
`i` is the current attempt index, the first component of the result is
how the call ends, the second lists each `time.sleep(actual_delay)`
duration in order. -/
def retryGo (strategy : RetryStrategy) (delay backoff : ℚ)
    (f : ℕ → Attempt α) : ℕ → ℕ → ℚ → RetryOut α × List ℚ
  | _, 0, _ => (.fellThrough, [])
  | i, remaining + 1, actual =>
      match f i with
      | .success v => (.returned v, [])
      | .nonmatching e => (.propagated e, [])
      | .retryable e =>
          if remaining = 0 then (.raised e, [])
          else
            let r := retryGo strategy delay backoff f (i + 1) remaining
              (updateDelay strategy delay backoff actual)
            (r.1, actual :: r.2)

/-- `retry_on_exception(max_attempts, delay, strategy, backoff_factor,
exceptions)` applied to an operation whose attempt `i` behaves as `f i`. -/
def retryOnException (maxAttempts : ℕ) (delay : ℚ) (strategy : RetryStrategy)
    (backoff : ℚ) (f : ℕ → Attempt α) : RetryOut α × List ℚ :=
  retryGo strategy delay backoff f 0 maxAttempts delay

/-! ## Stage directory constants (`os.path.join` renders with `/`) -/

/-- `os.path.join` on relative POSIX components. -/
def pathJoin (parts : List String) : String := String.intercalate "/" parts

/-- `convert.py`: textures land in `paths.convert_dir / "textures"` with
`convert_dir = files/temp/20_convert`. -/
def convertOutputTexturesDir : String :=
  pathJoin ["files/temp", "20_convert", "textures"]

/-- `premultiply.py` line 62. -/
def premultiplyInputDir : String :=
  pathJoin ["files/temp", "20_convert", "textures"]

/-- `premultiply.py` line 63. -/
def premultiplyOutputDir : String :=
  pathJoin ["files/temp", "21_premultiply", "textures"]

/-- `extract_alpha.py` line 61. -/
def extractAlphaInputDir : String :=
  pathJoin ["files/temp", "21_premultiply", "textures"]

/-- `extract_alpha.py` line 62. -/
def extractAlphaOutputDir : String := pathJoin ["files/temp", "22_alpha_extract"]

/-- `upscale_alpha.py` line 63. -/
def upscaleAlphaInputDir : String := pathJoin ["files/temp", "22_alpha_extract"]

/-- `upscale_alpha.py` line 64. -/
def upscaleAlphaOutputDir : String := pathJoin ["files/temp", "23_alpha_upscale"]

/-- `upscale.py` line 199. -/
def upscaleInputDir : String := pathJoin ["files/temp", "20_convert", "textures"]

/-- `upscale.py` line 202 (no `textures` subdirectory). -/
def upscaleOutputDir : String := pathJoin ["files/temp", "30_upscale"]

/-- `reattach_alpha.py` line 63: upscaled RGB input. -/
def reattachRgbInputDir : String :=
  pathJoin ["files/temp", "30_upscale", "textures"]

/-- `reattach_alpha.py` line 64: upscaled alpha input. -/
def reattachAlphaInputDir : String := pathJoin ["files/temp", "23_alpha_upscale"]

/-- `reattach_alpha.py` line 65: where the recombined RGBA textures are
written. -/
def reattachOutputDir : String :=
  pathJoin ["files/temp", "31_reattach", "textures"]

/-- `verify.py` line 67: where `VerifyPhase` reads the recombined
textures. -/
def verifyInputDir : String :=
  pathJoin ["files", "output", "31_reattach", "textures"]

/-- `scrub.py` line 63. -/
def scrubInputDir : String :=
  pathJoin ["files", "output", "31_reattach", "textures"]

/-- `scrub.py` line 64. -/
def scrubOutputDir : String := pathJoin ["files", "output", "32_scrub", "textures"]

/-- `exec` and state fixtures of the concrete orchestrator scenarios. -/
def c4Exec : String → Option String := fun _ => none

/-- State fixture for the dependency-gating scenario: the two alpha
dependencies of `reattach_alpha` are completed, `upscale` is not. -/
def c4State : StateMap :=
  [("extract_alpha", "completed"), ("upscale_alpha", "completed")]

/-- The state after the failed run of the resumability scenario: every
phase before `verify` completed, `verify` failed, `scrub` and
`generate_mod` never run. -/
def c5State : StateMap :=
  [("game_files", "completed"), ("extract", "completed"),
   ("convert", "completed"), ("premultiply", "completed"),
   ("extract_alpha", "completed"), ("upscale_alpha", "completed"),
   ("upscale", "completed"), ("reattach_alpha", "completed"),
   ("verify", "failed: Pink artifacts detected in upscaled images")]

/-- Phase behavior fixture: `verify` raises, everything else succeeds. -/
def c9Exec : String → Option String :=
  fun p => if p == "verify"
           then some "Pink artifacts detected in upscaled images" else none

/-- State fixture: all eight phases before `verify` completed. -/
def c9State : StateMap :=
  [("game_files", "completed"), ("extract", "completed"),
   ("convert", "completed"), ("premultiply", "completed"),
   ("extract_alpha", "completed"), ("upscale_alpha", "completed"),
   ("upscale", "completed"), ("reattach_alpha", "completed")]

/-! ## Helper lemmas about the scrub transform -/

/-- A pixel the magenta heuristic does not match is left unchanged. -/
theorem scrubPixel_of_not_magenta {t : ℚ} {p : Pixel}
    (h : magentaB t p = false) : scrubPixel t p = p := by
  simp [scrubPixel, h]

/-- `scrubPixel` is idempotent on every pixel. -/
theorem scrubPixel_idem (t : ℚ) (p : Pixel) :
    scrubPixel t (scrubPixel t p) = scrubPixel t p := by
  unfold scrubPixel
  by_cases h : (magentaB t p && (p.a == 0)) = true
  · have ha : p.a = 0 := by
      have := (Bool.and_eq_true _ _).mp h
      simpa using this.2
    simp only [h, if_pos]
    by_cases hm : magentaB t { r := 0, g := 0, b := 0, a := p.a } = true
    · simp [hm, ha]
    · simp [hm]
  · simp [h]

/-- A list without magenta-classified pixels is scrubbed to itself. -/
theorem map_scrubPixel_of_no_magenta (t : ℚ) (ps : List Pixel)
    (hall : ∀ p ∈ ps, magentaB t p = false) :
    List.map (scrubPixel t) ps = ps := by
  induction ps with
  | nil => rfl
  | cons q qs ih =>
      rw [List.map_cons, scrubPixel_of_not_magenta (hall q (by simp)),
        ih fun p hp => hall p (List.mem_cons_of_mem q hp)]

/-- The branch on `np.any(magenta_mask)` is immaterial: the scrub of an
RGBA image is always the pixelwise map of `scrubPixel`. -/
theorem removeMagenta_eq_map (t : ℚ) (ps : List Pixel) :
    removeMagentaPixels t (Img.rgba ps) = Img.rgba (List.map (scrubPixel t) ps) := by
  unfold removeMagentaPixels
  by_cases h : ps.any (magentaB t) = true
  · simp [h]
  · have hall : ∀ p ∈ ps, magentaB t p = false := by
      intro p hp
      have := List.any_eq_false.mp (Bool.eq_false_iff.mpr h) p hp
      simpa using this
    simp [h, map_scrubPixel_of_no_magenta t ps hall]

/-! ## Helper lemma about premultiplication -/

/-- In the uint8 range, the premultiplied channel is the natural-number
quotient `c * a / 255` — i.e. the float product truncated (floored), the
clip to `[0, 255]` being a no-op. -/
theorem premultChan_eq_div (c a : ℕ) (hc : c ≤ 255) (ha : a ≤ 255) :
    premultChan c a = c * a / 255 := by
  unfold premultChan truncUint8 clip255
  by_cases h : 0 < a
  · have hx : (0:ℚ) ≤ (c:ℚ) * ((a:ℚ) / 255) := by positivity
    have hc1 : (c:ℚ) ≤ 255 := by exact_mod_cast hc
    have ha1 : (a:ℚ) ≤ 255 := by exact_mod_cast ha
    have h3 : (a:ℚ) / 255 ≤ 1 := by
      rw [div_le_one (by norm_num : (0:ℚ) < 255)]
      exact ha1
    have hx2 : (c:ℚ) * ((a:ℚ) / 255) ≤ 255 := by
      calc (c:ℚ) * ((a:ℚ) / 255) ≤ 255 * 1 :=
            mul_le_mul hc1 h3 (by positivity) (by norm_num)
        _ = 255 := by norm_num
    rw [if_pos h, min_eq_right hx2, max_eq_right hx]
    have hcast : (c:ℚ) * ((a:ℚ) / 255) = ((c * a : ℕ) : ℚ) / ((255:ℕ) : ℚ) := by
      push_cast
      ring
    rw [hcast, Int.floor_toNat]
    exact Nat.floor_div_eq_div _ _
  · have ha0 : a = 0 := by omega
    subst ha0
    simp [h]

/-! ## Claims -/

/-- C1. The claim states the Verify pink test as `red > (1-t)*255 ∧
blue > (1-t)*255 ∧ green < t*255`; `verify.py` line 124 implements
`red > t*255 ∧ blue > t*255 ∧ green < (1-t)*255`. At the default
tolerance `t = 0.08`, the dark grey transparent pixel `(30,30,30,0)` is
flagged by the code although the claimed classification rejects it; the
code contradicts its own comment ("high red and blue, low green") and
the sibling scrub phase, which implements the claimed direction. A
non-RGBA image is indeed never flagged. -/
theorem c1_pink_threshold_inverted :
    checkPinkHalos (8/100) (Img.rgba [⟨30, 30, 30, 0⟩]) = true ∧
    specPinkB (8/100) ⟨30, 30, 30, 0⟩ = false ∧
    codePinkB (8/100) ⟨30, 30, 30, 0⟩ = true ∧
    (∀ d, checkPinkHalos (8/100) (Img.other d) = false) := by
  refine ⟨?_, ?_, ?_, fun d => rfl⟩
  · simp [checkPinkHalos, anyNonZeroRgb, codePinkB]
    norm_num
  · simp [specPinkB]
    norm_num
  · simp [codePinkB]
    norm_num

/-- C2 counterexample. The claim says the output channel is
`round(RGB * alpha/255)`: for the pixel `(3,3,3,128)` that rounding is
`round(1.5058...) = 2`, but the premultiply phase truncates
(`astype(np.uint8)`) and writes channel value 1. -/
theorem c2_round_counterexample :
    premultiplyImage (Img.rgba [⟨3, 3, 3, 128⟩]) = Img.rgba [⟨1, 1, 1, 128⟩] ∧
    round ((3 * 128 : ℚ) / 255) = 2 := by
  constructor
  · have h := premultChan_eq_div 3 128 (by norm_num) (by norm_num)
    simp [premultiplyImage, premultPixel, h]
  · have h1 : (3 * 128 : ℚ) / 255 + 1 / 2 = 1023 / 510 := by norm_num
    rw [round_eq, h1, Int.floor_eq_iff]
    norm_num

/-- C2 (amended). For every RGBA pixel in the uint8 range, premultiply
writes `(0,0,0)` when `alpha == 0` and otherwise each colour channel
becomes `⌊RGB * alpha / 255⌋` — truncation rather than the claimed
rounding — while alpha is preserved; non-RGBA images pass through
unchanged. -/
theorem c2_premultiply_truncates (ps : List Pixel) (i : ℕ) (p : Pixel)
    (hp : ps[i]? = some p) (hr : p.r ≤ 255) (hg : p.g ≤ 255)
    (hb : p.b ≤ 255) (ha : p.a ≤ 255) :
    (imgPixels (premultiplyImage (Img.rgba ps)))[i]? =
      some { r := p.r * p.a / 255, g := p.g * p.a / 255,
             b := p.b * p.a / 255, a := p.a } ∧
    (p.a = 0 → (imgPixels (premultiplyImage (Img.rgba ps)))[i]? =
      some { r := 0, g := 0, b := 0, a := p.a }) ∧
    (∀ d, premultiplyImage (Img.other d) = Img.other d) := by
  have hmain : (imgPixels (premultiplyImage (Img.rgba ps)))[i]? =
      some { r := p.r * p.a / 255, g := p.g * p.a / 255,
             b := p.b * p.a / 255, a := p.a } := by
    simp only [premultiplyImage, imgPixels, List.getElem?_map, hp]
    simp [premultPixel, premultChan_eq_div p.r p.a hr ha,
      premultChan_eq_div p.g p.a hg ha, premultChan_eq_div p.b p.a hb ha]
  refine ⟨hmain, ?_, fun d => rfl⟩
  intro ha0
  rw [hmain, ha0]
  simp

/-- C2 witness: at the pixel `(3,3,3,128)` the amended theorem yields
channel value `3 * 128 / 255 = 1`. -/
theorem c2_premultiply_truncates_witness :
    (imgPixels (premultiplyImage (Img.rgba [⟨3, 3, 3, 128⟩])))[0]? =
      some { r := 3 * 128 / 255, g := 3 * 128 / 255,
             b := 3 * 128 / 255, a := 128 } :=
  (c2_premultiply_truncates [⟨3, 3, 3, 128⟩] 0 ⟨3, 3, 3, 128⟩ rfl
    (by norm_num) (by norm_num) (by norm_num) (by norm_num)).1

/-- C3. The stage directory contract is broken at the recombine boundary:
`reattach_alpha.py` writes the recombined RGBA textures to
`files/temp/31_reattach/textures`, yet `verify.py` and `scrub.py` read
from `files/output/31_reattach/textures`, and `upscale.py` writes to
`files/temp/30_upscale` while `reattach_alpha.py` reads from
`files/temp/30_upscale/textures`. The earlier pairs of the chain do
match. -/
theorem c3_consumer_producer_directories :
    verifyInputDir ≠ reattachOutputDir ∧
    scrubInputDir ≠ reattachOutputDir ∧
    reattachRgbInputDir ≠ upscaleOutputDir ∧
    premultiplyInputDir = convertOutputTexturesDir ∧
    extractAlphaInputDir = premultiplyOutputDir ∧
    upscaleAlphaInputDir = extractAlphaOutputDir ∧
    reattachAlphaInputDir = upscaleAlphaOutputDir := by
  refine ⟨by decide, by decide, by decide, rfl, rfl, rfl, rfl⟩

/-- C8. Scrub, pixelwise: exactly the pixels that are magenta-classified
and fully transparent get their RGB forced to `(0,0,0)`; every other
pixel — in particular every pixel with `alpha > 0`, magenta or not — is
unchanged, and alpha is preserved everywhere. -/
theorem c8_scrub_pixelwise (t : ℚ) (ps : List Pixel) (i : ℕ) (p : Pixel)
    (hp : ps[i]? = some p) :
    (imgPixels (removeMagentaPixels t (Img.rgba ps)))[i]? =
      some (if magentaB t p = true ∧ p.a = 0 then
              { r := 0, g := 0, b := 0, a := p.a } else p) ∧
    (p.a ≠ 0 → (imgPixels (removeMagentaPixels t (Img.rgba ps)))[i]? = some p) := by
  rw [removeMagenta_eq_map]
  constructor
  · simp only [imgPixels, List.getElem?_map, hp, Option.map_some]
    by_cases hm : magentaB t p = true <;> by_cases ha : p.a = 0 <;>
      simp [scrubPixel, hm, ha]
  · intro ha
    simp only [imgPixels, List.getElem?_map, hp, Option.map_some]
    simp [scrubPixel, ha]

/-- C8 witness: the specification's example pair — a fully transparent
magenta pixel is blacked out with alpha kept 0 and a same-colour pixel
with alpha 200 is untouched. -/
theorem c8_scrub_pixelwise_witness :
    (imgPixels (removeMagentaPixels (8/100)
        (Img.rgba [⟨255, 0, 255, 0⟩, ⟨255, 0, 255, 200⟩])))[1]? =
      some ⟨255, 0, 255, 200⟩ :=
  (c8_scrub_pixelwise (8/100) [⟨255, 0, 255, 0⟩, ⟨255, 0, 255, 200⟩] 1
      ⟨255, 0, 255, 200⟩ rfl).2 (by decide)

/-- C6 counterexample. At a directory holding one defective image
`a.png`, Verify raises a `RuntimeError` whose message is the fixed string
"Pink artifacts detected in upscaled images": the raised exception is not
a `VerificationError` (no such class exists in the code) and its message
does not contain the offending filename. -/
theorem c6_runtime_error_counterexample :
    verifyRun (8/100) [("a.png", Img.rgba [⟨255, 0, 255, 0⟩])] [] =
      (.error (.runtimeError "Pink artifacts detected in upscaled images"),
       [("a.png", Img.rgba [⟨255, 0, 255, 0⟩])]) ∧
    ¬ (("a.png").data <:+: ("Pink artifacts detected in upscaled images").data) := by
  constructor
  · have hpink : checkPinkHalos (8/100) (Img.rgba [⟨255, 0, 255, 0⟩]) = true := by
      simp [checkPinkHalos, anyNonZeroRgb, codePinkB]
      norm_num
    simp [verifyRun, verifyIssues, hpink, strEndsWith]
  · decide

/-- C6 (amended). On a non-empty input directory, Verify raises a
`RuntimeError` with the fixed message "Pink artifacts detected in
upscaled images" whenever some image contains a defective pixel (the
offending filenames are only logged, not carried by the exception), the
directory contents are never modified, and when no image is defective the
phase completes and sets status `verify → "completed"`. -/
theorem c6_verify_raises_runtime_error (t : ℚ) (files : List (String × Img))
    (st : StateMap) (hne : files ≠ []) :
    (verifyIssues t files ≠ [] →
        verifyRun t files st =
          (.error (.runtimeError "Pink artifacts detected in upscaled images"),
           files)) ∧
    (verifyIssues t files = [] →
        verifyRun t files st = (.ok (stateSet st "verify" "completed"), files)) ∧
    (verifyRun t files st).2 = files := by
  have hfe : ¬(files.isEmpty = true) := by
    simpa [List.isEmpty_iff] using hne
  refine ⟨?_, ?_, ?_⟩
  · intro hiss
    unfold verifyRun
    rw [if_neg hfe, if_pos]
    simpa [List.isEmpty_iff] using hiss
  · intro hiss
    unfold verifyRun
    rw [if_neg hfe, if_neg]
    simp [hiss]
  · unfold verifyRun
    split
    · rfl
    split
    · rfl
    · rfl

/-- C6 witness: a directory with one clean image completes and records
`verify → "completed"`. -/
theorem c6_verify_raises_runtime_error_witness :
    verifyRun (8/100) [("b.png", Img.rgba [⟨0, 0, 0, 0⟩])] [] =
      (.ok (stateSet [] "verify" "completed"),
       [("b.png", Img.rgba [⟨0, 0, 0, 0⟩])]) :=
  (c6_verify_raises_runtime_error (8/100) [("b.png", Img.rgba [⟨0, 0, 0, 0⟩])] []
      (List.cons_ne_nil _ _)).2.1 (by
    simp [verifyIssues, checkPinkHalos, anyNonZeroRgb, strEndsWith]
    norm_num)

/-- One unrolling of the retry loop. -/
theorem retryGo_succ (strategy : RetryStrategy) (d b : ℚ) (f : ℕ → Attempt α)
    (i n : ℕ) (actual : ℚ) :
    retryGo strategy d b f i (n + 1) actual =
      match f i with
      | .success v => (.returned v, [])
      | .nonmatching e => (.propagated e, [])
      | .retryable e =>
          if n = 0 then (.raised e, [])
          else
            let r := retryGo strategy d b f (i + 1) n
              (updateDelay strategy d b actual)
            (r.1, actual :: r.2) := rfl

/-- C7. Under the exponential strategy with `max_attempts = 3`: an
operation failing retryably on attempts 1 and 2 and succeeding on
attempt 3 returns the success value after exactly two sleeps, the second
of duration `delay * backoff_factor`; an operation failing retryably on
all three attempts re-raises the third attempt's exception after the same
two sleeps. -/
theorem c7_retry_exponential {α : Type} (d b : ℚ) (e0 e1 : String) (v : α)
    (f g : ℕ → Attempt α) (err : ℕ → String)
    (h0 : f 0 = .retryable e0) (h1 : f 1 = .retryable e1)
    (h2 : f 2 = .success v)
    (hg : ∀ i, i < 3 → g i = .retryable (err i)) :
    retryOnException 3 d .exponential b f = (.returned v, [d, d * b]) ∧
    retryOnException 3 d .exponential b g = (.raised (err 2), [d, d * b]) := by
  constructor
  · unfold retryOnException
    rw [show (3:ℕ) = 2 + 1 from rfl, retryGo_succ, h0]
    simp only [updateDelay]
    rw [show (2:ℕ) = 1 + 1 from rfl, retryGo_succ, h1]
    simp only [updateDelay]
    rw [show (1:ℕ) = 0 + 1 from rfl, retryGo_succ, h2]
    simp
  · unfold retryOnException
    rw [show (3:ℕ) = 2 + 1 from rfl, retryGo_succ, hg 0 (by norm_num)]
    simp only [updateDelay]
    rw [show (2:ℕ) = 1 + 1 from rfl, retryGo_succ, hg 1 (by norm_num)]
    simp only [updateDelay]
    rw [show (1:ℕ) = 0 + 1 from rfl, retryGo_succ, hg 2 (by norm_num)]
    simp

/-- C7 witness at `delay = 1`, `backoff_factor = 2` and concrete
operations. -/
theorem c7_retry_exponential_witness :
    retryOnException 3 (1:ℚ) .exponential 2
        (fun i => if i = 0 then Attempt.retryable "a"
                  else if i = 1 then Attempt.retryable "b"
                  else Attempt.success (42:ℕ)) =
      (.returned 42, [1, 1 * 2]) ∧
    retryOnException 3 (1:ℚ) .exponential 2
        (fun _ => Attempt.retryable (α := ℕ) "c") =
      (.raised "c", [1, 1 * 2]) :=
  c7_retry_exponential 1 2 "a" "b" 42 _ _ (fun _ => "c")
    rfl rfl rfl (fun _ _ => rfl)

/-- C10. The scrub transform is idempotent: applying it to its own output
returns the output unchanged, for every tolerance and every image. -/
theorem c10_scrub_idempotent (t : ℚ) (img : Img) :
    removeMagentaPixels t (removeMagentaPixels t img) = removeMagentaPixels t img := by
  cases img with
  | other d => rfl
  | rgba ps =>
      rw [removeMagenta_eq_map, removeMagenta_eq_map, List.map_map]
      exact congrArg Img.rgba (List.map_congr_left fun p _ => scrubPixel_idem t p)

/-! ## Helper lemmas about the orchestrator -/

/-- When every known requested phase has its dependencies completed,
validation returns all known requested phases and no missing entry. -/
theorem validate_eq_filter (names : List String) (st : StateMap)
    (h : ∀ q ∈ names, phaseKnown q = true → unmetDeps st q = []) :
    validatePhaseDependencies names st = (names.filter phaseKnown, []) := by
  induction names with
  | nil => rfl
  | cons p rest ih =>
      rw [validatePhaseDependencies,
        ih fun q hq hk => h q (List.mem_cons_of_mem p hq) hk]
      by_cases hk : phaseKnown p = true
      · have hu : unmetDeps st p = [] := h p (by simp) hk
        simp [hk, hu, List.filter_cons]
      · simp [List.filter_cons, hk]

/-- A dry run with `skip_completed = False` returns normally and enters
`_run_single_phase` on every listed phase. -/
theorem runLoop_dry (exec : String → Option String) (names : List String)
    (st : StateMap) :
    (runLoop true false exec names st).1 = .ok () ∧
    (runLoop true false exec names st).2.2 = names := by
  induction names generalizing st with
  | nil => exact ⟨rfl, rfl⟩
  | cons p rest ih =>
      rw [runLoop]
      have h := ih (stateSet st p "completed")
      simp [h.1, h.2]

/-- Every requested known phase with unmet dependencies contributes its
`missingEntry` to the `missing_dependencies` list. -/
theorem validate_missing_of_unmet (names : List String) (st : StateMap)
    (p : String) (hp : p ∈ names) (hk : phaseKnown p = true)
    (hu : unmetDeps st p ≠ []) :
    missingEntry st p ∈ (validatePhaseDependencies names st).2 := by
  induction names with
  | nil => cases hp
  | cons q rest ih =>
      rw [validatePhaseDependencies]
      rcases List.mem_cons.mp hp with rfl | hmem
      · simp [hk, List.isEmpty_iff, hu]
      · by_cases hkq : phaseKnown q = true
        · by_cases huq : (unmetDeps st q).isEmpty = true
          · simpa [hkq, huq] using ih hmem
          · simpa [hkq, huq] using Or.inr (ih hmem)
        · simpa [hkq] using ih hmem

/-- C4 counterexample. Requesting `reattach_alpha` while `upscale` is not
completed raises a `PipelineError` — the base class — not the
`DependencyError` subclass the claim names (the code defines
`DependencyError` for this purpose but never raises it); no phase is
executed. -/
theorem c4_pipeline_error_not_dependency_error :
    (runPhases (some ["reattach_alpha"]) false true c4Exec c4State).result =
      .error (.pipelineError
        "Phase dependencies not satisfied:\n  - reattach_alpha: missing upscale") ∧
    raisedDependencyError
      (runPhases (some ["reattach_alpha"]) false true c4Exec c4State) = false ∧
    (runPhases (some ["reattach_alpha"]) false true c4Exec c4State).executed = [] :=
  ⟨rfl, rfl, rfl⟩

/-- C4 (amended). If a requested known phase has an unmet dependency,
`run_phases` fails as a whole with a `PipelineError` (not the defined but
unused `DependencyError` subclass) whose message renders, for every such
phase, an entry listing all of its unmet dependencies; no phase is
executed and the state is untouched. Once every requested phase's
dependencies are completed, the same request proceeds: validation reports
nothing missing and every known requested phase is reached by the
execution loop. -/
theorem c4_unmet_dependencies_fail_whole (names : List String) (st : StateMap)
    (dryRun skipCompleted : Bool) (exec : String → Option String) (p : String)
    (hp : p ∈ names) (hk : phaseKnown p = true) (hu : unmetDeps st p ≠ []) :
    (runPhases (some names) dryRun skipCompleted exec st).result =
      .error (.pipelineError (depErrorMsg (validatePhaseDependencies names st).2)) ∧
    (runPhases (some names) dryRun skipCompleted exec st).executed = [] ∧
    (runPhases (some names) dryRun skipCompleted exec st).state = st ∧
    missingEntry st p ∈ (validatePhaseDependencies names st).2 ∧
    missingEntry st p =
      p ++ ": missing " ++ String.intercalate "/" (unmetDeps st p) ∧
    (∀ st2, (∀ q ∈ names, phaseKnown q = true → unmetDeps st2 q = []) →
      (runPhases (some names) true false exec st2).result = .ok () ∧
      (runPhases (some names) true false exec st2).executed =
        names.filter phaseKnown) := by
  have hmem := validate_missing_of_unmet names st p hp hk hu
  have hne : (validatePhaseDependencies names st).2 ≠ [] :=
    List.ne_nil_of_mem hmem
  have hb : (validatePhaseDependencies names st).2.isEmpty = false := by
    simpa [List.isEmpty_iff] using hne
  refine ⟨?_, ?_, ?_, hmem, rfl, ?_⟩
  · simp [runPhases, hb]
  · simp [runPhases, hb]
  · simp [runPhases, hb]
  · intro st2 hall
    have hv := validate_eq_filter names st2 hall
    by_cases hf : names.filter phaseKnown = []
    · simp [runPhases, hv, hf]
    · have h1 : (names.filter phaseKnown).isEmpty = false := by
        simpa [List.isEmpty_iff] using hf
      have h2 := runLoop_dry exec (names.filter phaseKnown) st2
      simp [runPhases, hv, h1, h2.1, h2.2]

/-- C4 witness: the dependency-gating scenario of the specification,
requesting `reattach_alpha` with `upscale` not completed. -/
theorem c4_unmet_dependencies_fail_whole_witness :
    (runPhases (some ["reattach_alpha"]) false true c4Exec c4State).result =
      .error (.pipelineError
        (depErrorMsg
          (validatePhaseDependencies ["reattach_alpha"] c4State).2)) :=
  (c4_unmet_dependencies_fail_whole ["reattach_alpha"] c4State false true
    c4Exec "reattach_alpha" (by simp) rfl
    (by
      rw [show unmetDeps c4State "reattach_alpha" = ["upscale"] from rfl]
      exact List.cons_ne_nil _ _)).1

/-- C5. Re-invoking `run_phases` over all phases with
`skip_completed = True` after `verify` failed does not resume: upfront
dependency validation checks the never-run `generate_mod` against the
stored state, finds `scrub` not completed, and raises before any phase —
including `verify` — is reached, for every phase behavior and dry-run
flag. Restricting the request to `verify` alone does re-execute it. -/
theorem c5_resume_all_phases_blocked (dryRun : Bool)
    (exec : String → Option String) :
    (runPhases none dryRun true exec c5State).result =
      .error (.pipelineError
        "Phase dependencies not satisfied:\n  - generate_mod: missing scrub") ∧
    (runPhases none dryRun true exec c5State).executed = [] ∧
    (runPhases (some ["verify"]) false true exec c5State).executed =
      ["verify"] := by
  refine ⟨rfl, rfl, ?_⟩
  have hval : validatePhaseDependencies ["verify"] c5State = (["verify"], []) :=
    rfl
  have hskip : (stateGet c5State "verify" == some "completed") = false := rfl
  simp only [runPhases, hval]
  simp only [runLoop, hskip]
  cases h : exec "verify" <;> simp [h, runLoop, hval]

/-- C9 (amended). A non-dry-run `run_phases` call persists the workflow
summary (every declared phase mapped to its final status) when the
execution loop returns normally on a non-empty valid-phase list — and
only then: whenever the call raises (dependency failure or a phase
failure), `_finish_workflow` is never reached and no summary is
written. -/
theorem c9_summary_only_on_success (names : List String) (st : StateMap)
    (skipCompleted : Bool) (exec : String → Option String) :
    ((validatePhaseDependencies names st).2 = [] →
     (validatePhaseDependencies names st).1 ≠ [] →
     (runLoop false skipCompleted exec
        (validatePhaseDependencies names st).1 st).1 = .ok () →
     (runPhases (some names) false skipCompleted exec st).summary =
       some (workflowSummary
         (runPhases (some names) false skipCompleted exec st).state)) ∧
    (∀ e, (runPhases (some names) false skipCompleted exec st).result = .error e →
       (runPhases (some names) false skipCompleted exec st).summary = none) := by
  constructor
  · intro hv hnv hok
    simp [runPhases, hv, hnv, hok]
  · intro e he
    by_cases h1 : (validatePhaseDependencies names st).2 = []
    · by_cases h2 : (validatePhaseDependencies names st).1 = []
      · simp [runPhases, h1, h2] at he
      · cases h3 : (runLoop false skipCompleted exec
            (validatePhaseDependencies names st).1 st).1 with
        | ok a => simp [runPhases, h1, h2, h3] at he
        | error e2 => simp [runPhases, h1, h2, h3]
    · simp [runPhases, h1]

/-- C9 counterexample. A non-dry-run invocation in which the `verify`
phase fails propagates the exception without persisting any run
summary — the claim says a summary is persisted independent of
success/failure. -/
theorem c9_no_summary_on_failure :
    (runPhases (some ["verify"]) false true c9Exec c9State).result =
      .error (.pipelineError
        "Phase verify failed: Pink artifacts detected in upscaled images") ∧
    (runPhases (some ["verify"]) false true c9Exec c9State).summary = none :=
  ⟨rfl, rfl⟩

/-- C9 witness: a successful single-phase run persists the summary. -/
theorem c9_summary_only_on_success_witness :
    (runPhases (some ["game_files"]) false false (fun _ => none) []).summary =
      some (workflowSummary
        (runPhases (some ["game_files"]) false false (fun _ => none) []).state) :=
  (c9_summary_only_on_success ["game_files"] [] false (fun _ => none)).1 rfl
    (by
      rw [show (validatePhaseDependencies ["game_files"] ([]:StateMap)).1 =
        ["game_files"] from rfl]
      exact List.cons_ne_nil _ _)
    rfl

end Upscaler
